import Mathlib

/-!
Verification of the article service (`service-2-article`): a shallow
embedding of the gRPC server handlers (`internal/server/article_server.go`),
the upstream user client (`internal/client/user_client.go`), the response
envelope helpers (`internal/response/grpc_response.go`) and the PostgreSQL
repository (`internal/repository`), together with proofs of the spec's
claims about them.

Conventions of the embedding:
* Go `int32` values are modelled as `Int` with explicit two's-complement
  wrap-around (`wrap32`) applied exactly where Go arithmetic can overflow.
* The network and the database are modelled as explicit inputs: the
  upstream user service is an oracle giving the raw result of each RPC
  attempt, the repository is a store `Int → Option Article` plus explicit
  outcome parameters for failure injection.
* Handlers additionally return a trace of the side-effecting calls they
  issued (repository reads/writes, upstream lookups), so that claims about
  "no storage query is issued" are statable.
-/

namespace ArticleService

/-- Two's-complement wrap-around into the `int32` range, the semantics of
Go arithmetic on `int32`. -/
def wrap32 (n : Int) : Int :=
  (n + 2 ^ 31) % 2 ^ 32 - 2 ^ 31

/-- The gRPC status codes (`google.golang.org/grpc/codes`), the full
closed set of 17 codes. -/
inductive GrpcCode where
  | OK
  | Canceled
  | Unknown
  | InvalidArgument
  | DeadlineExceeded
  | NotFound
  | AlreadyExists
  | PermissionDenied
  | ResourceExhausted
  | FailedPrecondition
  | Aborted
  | OutOfRange
  | Unimplemented
  | Internal
  | Unavailable
  | DataLoss
  | Unauthenticated
deriving DecidableEq, Repr, Fintype

namespace Response

/-! `internal/response/grpc_response.go` -/

/-- `CodeSuccess = "000"` -/
def CodeSuccess : String := "000"
/-- `CodeUnknownError = "002"` -/
def CodeUnknownError : String := "002"
/-- `CodeInvalidRequest = "003"` -/
def CodeInvalidRequest : String := "003"
/-- `CodeNotFound = "005"` -/
def CodeNotFound : String := "005"
/-- `CodeAlreadyExists = "006"` -/
def CodeAlreadyExists : String := "006"
/-- `CodePermissionDenied = "007"` -/
def CodePermissionDenied : String := "007"
/-- `CodeInternalError = "013"` -/
def CodeInternalError : String := "013"
/-- `CodeUnauthenticated = "014"` -/
def CodeUnauthenticated : String := "014"
/-- `CodeServiceUnavailable = "015"` -/
def CodeServiceUnavailable : String := "015"
/-- `CodeUnauthorized = "016"` -/
def CodeUnauthorized : String := "016"

/-- The closed set of envelope codes of the wire contract. -/
def envelopeCodes : List String :=
  ["000", "002", "003", "005", "006", "007", "013", "014", "015", "016"]

/-- `MapGRPCCodeToString` from `grpc_response.go`: the `switch` statement
converting a gRPC code to the string envelope code, with `default`
returning `CodeUnknownError`. -/
def MapGRPCCodeToString (code : GrpcCode) : String :=
  match code with
  | .OK => CodeSuccess
  | .InvalidArgument => CodeInvalidRequest
  | .NotFound => CodeNotFound
  | .AlreadyExists => CodeAlreadyExists
  | .PermissionDenied => CodePermissionDenied
  | .Unauthenticated => CodeUnauthenticated
  | .Unavailable => CodeServiceUnavailable
  | .Internal => CodeInternalError
  | _ => CodeUnknownError

end Response

/-- The article row (`pb.Article`): id, title, content, owning user id and
the two timestamps maintained by the database (modelled as abstract
instants). -/
structure Article where
  id : Int
  title : String
  content : String
  userId : Int
  createdAt : Nat
  updatedAt : Nat
deriving DecidableEq, Repr

/-- The upstream user record (`userpb.User`). -/
structure User where
  id : Int
  name : String
  email : String
deriving DecidableEq, Repr

/-- `pb.ArticleWithUser`: an article together with its (optional) author.
`user = none` models the `nil` user of graceful degradation. -/
structure ArticleWithUser where
  article : Article
  user : Option User
deriving DecidableEq, Repr

/-- The `{code, message, data}` response envelope common to every RPC of
the service. The human-readable `message` string carries no contract
(every claim is about `code` and `data`), so it is not modelled. -/
structure Envelope (α : Type) where
  code : String
  data : Option α
deriving DecidableEq, Repr

namespace Client

/-! `internal/client/user_client.go` -/

/-- `maxRetries = 3` -/
def maxRetries : Nat := 3
/-- `retryBackoffInitial = 100 * time.Millisecond`, in milliseconds. -/
def retryBackoffInitial : Nat := 100
/-- `retryBackoffMax = 1 * time.Second`, in milliseconds. -/
def retryBackoffMax : Nat := 1000

/-- The raw result of one `c.client.GetUser` RPC as seen by
`UserClient.GetUser`:
* `ok u` — wire success with a populated `data.user`;
* `okEmpty` — wire success but `resp.GetData()` or its user is `nil`;
* `errStatus c` — an error carrying a gRPC status with code `c`;
* `errNonStatus` — an error that is not a gRPC status
  (`status.FromError` reports `ok = false`). -/
inductive RawResult where
  | ok (u : User)
  | okEmpty
  | errStatus (c : GrpcCode)
  | errNonStatus
deriving DecidableEq, Repr

/-- `UserClient.handleGetUserError`: classification of an RPC error.
A non-status error maps to `Internal`; the `switch` keeps `NotFound`,
`InvalidArgument`, `DeadlineExceeded`, `Unavailable` and `Internal`
unchanged and sends every other code to `Unknown`. -/
def handleGetUserError (e : Option GrpcCode) : GrpcCode :=
  match e with
  | none => .Internal
  | some c =>
    match c with
    | .NotFound => .NotFound
    | .InvalidArgument => .InvalidArgument
    | .DeadlineExceeded => .DeadlineExceeded
    | .Unavailable => .Unavailable
    | .Internal => .Internal
    | _ => .Unknown

/-- `UserClient.GetUser`: one upstream lookup. On an RPC error the result
is classified by `handleGetUserError`; on wire success with empty data the
client returns `NotFound`; otherwise the user is returned. -/
def GetUser (r : RawResult) : Except GrpcCode User :=
  match r with
  | .ok u => .ok u
  | .okEmpty => .error .NotFound
  | .errStatus c => .error (handleGetUserError (some c))
  | .errNonStatus => .error (handleGetUserError none)

/-- `isRetryableError`: only `Unavailable`, `DeadlineExceeded` and
`ResourceExhausted` trigger a retry. -/
def isRetryableError (code : GrpcCode) : Bool :=
  match code with
  | .Unavailable | .DeadlineExceeded | .ResourceExhausted => true
  | _ => false

instance : DecidableEq (Except GrpcCode User) := fun a b =>
  match a, b with
  | .ok u, .ok v =>
    if h : u = v then .isTrue (by rw [h]) else .isFalse (by simp [h])
  | .error c, .error d =>
    if h : c = d then .isTrue (by rw [h]) else .isFalse (by simp [h])
  | .ok _, .error _ => .isFalse (by simp)
  | .error _, .ok _ => .isFalse (by simp)

/-- Observable outcome of `GetUserWithRetry`: the value returned to the
caller, the number of `GetUser` attempts performed, and the list of
back-off sleeps (in milliseconds) in the order they were performed. -/
structure RetryTrace where
  result : Except GrpcCode User
  attemptsUsed : Nat
  sleeps : List Nat
deriving DecidableEq, Repr

/-- The `for attempt := 1; attempt <= maxRetries` loop of
`GetUserWithRetry`, recursing on the number of remaining attempts.
`backoff` is the current back-off; after sleeping it doubles, capped at
`retryBackoffMax`. When the last allowed attempt fails the last observed
error is returned without sleeping. -/
def retryLoop (oracle : Nat → RawResult) (attempt backoff : Nat) :
    Nat → RetryTrace
  | 0 => ⟨.error .Unknown, 0, []⟩
  | remaining + 1 =>
    match GetUser (oracle attempt) with
    | .ok u => ⟨.ok u, 1, []⟩
    | .error c =>
      if isRetryableError c then
        match remaining with
        | 0 => ⟨.error c, 1, []⟩
        | r + 1 =>
          let rest := retryLoop oracle (attempt + 1)
            (min (backoff * 2) retryBackoffMax) (r + 1)
          ⟨rest.result, rest.attemptsUsed + 1, backoff :: rest.sleeps⟩
      else
        ⟨.error c, 1, []⟩

/-- `UserClient.GetUserWithRetry`: up to `maxRetries` attempts starting
from `retryBackoffInitial`. The oracle gives the raw result of the k-th
RPC attempt. -/
def GetUserWithRetry (oracle : Nat → RawResult) : RetryTrace :=
  retryLoop oracle 1 retryBackoffInitial maxRetries

end Client

namespace Response

/-! Envelope helpers from `grpc_response.go`: the success constructors set
`code = "000"` and wrap the data, the error constructors set
`code = MapGRPCCodeToString c` and `data = nil`. -/

def CreateArticleSuccess (a : Article) : Envelope Article :=
  ⟨CodeSuccess, some a⟩

def GetArticleSuccess (a : ArticleWithUser) : Envelope ArticleWithUser :=
  ⟨CodeSuccess, some a⟩

def UpdateArticleSuccess (a : Article) : Envelope Article :=
  ⟨CodeSuccess, some a⟩

/-- `DeleteArticleSuccess` wraps `DeleteArticleData{Success: true}`: the
only payload of a successful delete is the boolean flag. -/
def DeleteArticleSuccess : Envelope Bool :=
  ⟨CodeSuccess, some true⟩

/-- `ListArticlesData`: articles, total count, current page, total pages. -/
structure ListData where
  articles : List ArticleWithUser
  total : Int
  page : Int
  totalPages : Int
deriving DecidableEq, Repr

def ListArticlesSuccess (articles : List ArticleWithUser)
    (total page totalPages : Int) : Envelope ListData :=
  ⟨CodeSuccess, some ⟨articles, total, page, totalPages⟩⟩

def CreateArticleError (c : GrpcCode) : Envelope Article :=
  ⟨MapGRPCCodeToString c, none⟩

def GetArticleError (c : GrpcCode) : Envelope ArticleWithUser :=
  ⟨MapGRPCCodeToString c, none⟩

def UpdateArticleError (c : GrpcCode) : Envelope Article :=
  ⟨MapGRPCCodeToString c, none⟩

def DeleteArticleError (c : GrpcCode) : Envelope Bool :=
  ⟨MapGRPCCodeToString c, none⟩

def ListArticlesError (c : GrpcCode) : Envelope ListData :=
  ⟨MapGRPCCodeToString c, none⟩

end Response

namespace Server

/-! `internal/server/article_server.go`. Handlers take the environment
(repository contents / failure injections, upstream oracle, authentication
outcome) as explicit arguments and additionally return the trace of
side-effecting calls they issued. -/

/-- `defaultPageSize = 10` -/
def defaultPageSize : Int := 10
/-- `maxPageSize = 100` -/
def maxPageSize : Int := 100

/-- `convertUser`: field-by-field copy of the user-service user into the
article-service proto user. -/
def convertUser (u : User) : User :=
  ⟨u.id, u.name, u.email⟩

/-- Result of `repo.GetByID`: the row, an error whose text contains
`"no rows"`, or any other database error. -/
inductive RepoGetResult where
  | found (a : Article)
  | noRows
  | dbError
deriving DecidableEq, Repr

/-- A side-effecting call issued by a handler. -/
inductive Event where
  | repoGetById (id : Int)
  | repoCreate (title content : String) (userId : Int)
  | repoUpdate (id : Int) (title content : String)
  | repoDelete (id : Int)
  | repoList (limit offset : Int) (userFilter : Option Int)
  | userLookup (userId : Int)
deriving DecidableEq, Repr

/-- Result of `GetArticleWithUser` (a Go `(*ArticleWithUser, error)`
pair), together with the trace of calls issued. -/
structure GetWithUserOutcome where
  result : Except GrpcCode ArticleWithUser
  events : List Event

/-- `GetArticleWithUser`: validate the id, load the article row, then do
one (non-retried) author lookup. `NotFound`, `Unavailable` and
`DeadlineExceeded` from the lookup degrade to a `nil` user; any other
lookup failure turns into an `Internal` error. -/
def GetArticleWithUser (reqId : Int) (repoGet : Int → RepoGetResult)
    (upstream : Int → Client.RawResult) : GetWithUserOutcome :=
  if reqId ≤ 0 then
    ⟨.error .InvalidArgument, []⟩
  else
    match repoGet reqId with
    | .noRows => ⟨.error .NotFound, [.repoGetById reqId]⟩
    | .dbError => ⟨.error .Internal, [.repoGetById reqId]⟩
    | .found a =>
      match Client.GetUser (upstream a.userId) with
      | .ok u =>
        ⟨.ok ⟨a, some (convertUser u)⟩,
          [.repoGetById reqId, .userLookup a.userId]⟩
      | .error c =>
        match c with
        | .NotFound =>
          ⟨.ok ⟨a, none⟩, [.repoGetById reqId, .userLookup a.userId]⟩
        | .Unavailable =>
          ⟨.ok ⟨a, none⟩, [.repoGetById reqId, .userLookup a.userId]⟩
        | .DeadlineExceeded =>
          ⟨.ok ⟨a, none⟩, [.repoGetById reqId, .userLookup a.userId]⟩
        | _ =>
          ⟨.error .Internal, [.repoGetById reqId, .userLookup a.userId]⟩

/-- Result of the `GetArticle` RPC: the wire envelope plus the trace. -/
structure GetOutcome where
  resp : Envelope ArticleWithUser
  events : List Event

/-- `GetArticle`: validate the id, delegate to `GetArticleWithUser`, and
wrap the outcome into the response envelope. -/
def GetArticle (reqId : Int) (repoGet : Int → RepoGetResult)
    (upstream : Int → Client.RawResult) : GetOutcome :=
  if reqId ≤ 0 then
    ⟨Response.GetArticleError .InvalidArgument, []⟩
  else
    let o := GetArticleWithUser reqId repoGet upstream
    match o.result with
    | .error c => ⟨Response.GetArticleError c, o.events⟩
    | .ok awu => ⟨Response.GetArticleSuccess awu, o.events⟩

/-- Outcome of authenticating the caller
(`auth.GetUserIDFromContextWithBlacklist`). -/
inductive AuthResult where
  | ok (userId : Int)
  | blacklisted
  | failed
deriving DecidableEq, Repr

/-- Result of the `CreateArticle` RPC: the wire envelope, the number of
upstream `GetUser` RPC attempts performed, and the trace. -/
structure CreateOutcome where
  resp : Envelope Article
  upstreamAttempts : Nat
  events : List Event

/-- `CreateArticle`: authenticate, validate title and content, verify the
author with a single `GetUser` call (no retry), then persist. The
`oracle` gives the raw result of the k-th upstream RPC attempt (only
attempt 1 is ever used here); `repoCreate` is the outcome of
`repo.Create`. -/
def CreateArticle (auth : AuthResult) (title content : String)
    (oracle : Nat → Client.RawResult) (repoCreate : Except Unit Article) :
    CreateOutcome :=
  match auth with
  | .blacklisted => ⟨Response.CreateArticleError .Unauthenticated, 0, []⟩
  | .failed => ⟨Response.CreateArticleError .Unauthenticated, 0, []⟩
  | .ok userId =>
    if title = "" then
      ⟨Response.CreateArticleError .InvalidArgument, 0, []⟩
    else if content = "" then
      ⟨Response.CreateArticleError .InvalidArgument, 0, []⟩
    else
      match Client.GetUser (oracle 1) with
      | .error c =>
        match c with
        | .NotFound =>
          ⟨Response.CreateArticleError .InvalidArgument, 1,
            [.userLookup userId]⟩
        | .Unavailable =>
          ⟨Response.CreateArticleError .Unavailable, 1, [.userLookup userId]⟩
        | .DeadlineExceeded =>
          ⟨Response.CreateArticleError .DeadlineExceeded, 1,
            [.userLookup userId]⟩
        | _ =>
          ⟨Response.CreateArticleError .Internal, 1, [.userLookup userId]⟩
      | .ok _ =>
        match repoCreate with
        | .error _ =>
          ⟨Response.CreateArticleError .Internal, 1,
            [.userLookup userId, .repoCreate title content userId]⟩
        | .ok article =>
          ⟨Response.CreateArticleSuccess article, 1,
            [.userLookup userId, .repoCreate title content userId]⟩

/-- Result of the deprecated `CreateArticleOld` (a Go
`(*pb.Article, error)` pair) plus the number of upstream attempts. -/
structure CreateOldOutcome where
  result : Except GrpcCode Article
  upstreamAttempts : Nat

/-- `CreateArticleOld` (deprecated): validates title, content and the
request's user id, then verifies the author with `GetUserWithRetry`. -/
def CreateArticleOld (title content : String) (reqUserId : Int)
    (oracle : Nat → Client.RawResult) (repoCreate : Except Unit Article) :
    CreateOldOutcome :=
  if title = "" then ⟨.error .InvalidArgument, 0⟩
  else if content = "" then ⟨.error .InvalidArgument, 0⟩
  else if reqUserId ≤ 0 then ⟨.error .InvalidArgument, 0⟩
  else
    let t := Client.GetUserWithRetry oracle
    match t.result with
    | .error c =>
      match c with
      | .NotFound => ⟨.error .InvalidArgument, t.attemptsUsed⟩
      | .Unavailable => ⟨.error .Unavailable, t.attemptsUsed⟩
      | .DeadlineExceeded => ⟨.error .DeadlineExceeded, t.attemptsUsed⟩
      | _ => ⟨.error .Internal, t.attemptsUsed⟩
    | .ok _ =>
      match repoCreate with
      | .error _ => ⟨.error .Internal, t.attemptsUsed⟩
      | .ok a => ⟨.ok a, t.attemptsUsed⟩

/-- Contents of the `articles` table, keyed by id. Used on the update and
delete paths, where the handler both reads and writes storage; on these
paths the database itself is assumed reachable (connection failures are
modelled only where a claim needs them, via `RepoGetResult.dbError`). -/
def Store := Int → Option Article

/-- `repo.Update` (`internal/repository`, `UPDATE articles SET title = $1,
content = $2, updated_at = CURRENT_TIMESTAMP WHERE id = $3 RETURNING …`):
overwrites title and content, refreshes `updated_at` with the current
instant `now`, and returns the updated row; updating an absent id yields
a `no rows` error from the `RETURNING` scan. -/
def repoUpdate (st : Store) (id : Int) (title content : String)
    (now : Nat) : Store × Except Unit Article :=
  match st id with
  | none => (st, .error ())
  | some a =>
    let a2 : Article :=
      { a with title := title, content := content, updatedAt := now }
    (fun j => if j = id then some a2 else st j, .ok a2)

/-- `repo.Delete` (`DELETE FROM articles WHERE id = $1`): removes the row;
`RowsAffected() == 0` is reported as an error. -/
def repoDelete (st : Store) (id : Int) : Store × Except Unit Unit :=
  match st id with
  | none => (st, .error ())
  | some _ => (fun j => if j = id then none else st j, .ok ())

/-- Result of the `UpdateArticle` RPC: the wire envelope, the resulting
table contents, and the trace. -/
structure UpdateOutcome where
  resp : Envelope Article
  store : Store
  events : List Event

/-- `UpdateArticle`: validate the id and that at least one field is
supplied, load the current row, substitute existing values for omitted
fields, and write. `now` is the database clock instant at which the
`UPDATE` executes. -/
def UpdateArticle (st : Store) (reqId : Int) (title content : String)
    (now : Nat) : UpdateOutcome :=
  if reqId ≤ 0 then
    ⟨Response.UpdateArticleError .InvalidArgument, st, []⟩
  else if title = "" ∧ content = "" then
    ⟨Response.UpdateArticleError .InvalidArgument, st, []⟩
  else
    match st reqId with
    | none =>
      ⟨Response.UpdateArticleError .NotFound, st, [.repoGetById reqId]⟩
    | some existing =>
      let t := if title = "" then existing.title else title
      let c := if content = "" then existing.content else content
      match repoUpdate st reqId t c now with
      | (st2, .error _) =>
        ⟨Response.UpdateArticleError .Internal, st2,
          [.repoGetById reqId, .repoUpdate reqId t c]⟩
      | (st2, .ok a) =>
        ⟨Response.UpdateArticleSuccess a, st2,
          [.repoGetById reqId, .repoUpdate reqId t c]⟩

/-- Result of the `DeleteArticle` RPC: the wire envelope, the resulting
table contents, and the trace. -/
structure DeleteOutcome where
  resp : Envelope Bool
  store : Store
  events : List Event

/-- `DeleteArticle`: validate the id, check the row exists via
`repo.GetByID` (the loaded row is discarded), then delete it. The
successful envelope is `DeleteArticleSuccess` — only a success flag. -/
def DeleteArticle (st : Store) (reqId : Int) : DeleteOutcome :=
  if reqId ≤ 0 then
    ⟨Response.DeleteArticleError .InvalidArgument, st, []⟩
  else
    match st reqId with
    | none =>
      ⟨Response.DeleteArticleError .NotFound, st, [.repoGetById reqId]⟩
    | some _ =>
      match repoDelete st reqId with
      | (st2, .error _) =>
        ⟨Response.DeleteArticleError .Internal, st2,
          [.repoGetById reqId, .repoDelete reqId]⟩
      | (st2, .ok _) =>
        ⟨Response.DeleteArticleSuccess, st2,
          [.repoGetById reqId, .repoDelete reqId]⟩

/-- The storage `LIMIT`/`OFFSET` query over the ordered result set
`rows` (PostgreSQL rejects a negative `OFFSET` or `LIMIT` with an error);
the reported total is the `COUNT(*)` scanned into an `int32`. -/
def storageList (rows : List Article) (limit offset : Int) :
    Except Unit (List Article × Int) :=
  if offset < 0 ∨ limit < 0 then .error ()
  else .ok ((rows.drop offset.toNat).take limit.toNat,
    wrap32 (rows.length : Int))

/-- Result of the `ListArticles` RPC: the wire envelope plus the `LIMIT`
and `OFFSET` values passed to storage (`none` when no query was issued). -/
structure ListOutcome where
  resp : Envelope Response.ListData
  queriedLimit : Option Int
  queriedOffset : Option Int

/-- `ListArticles`: normalize `page_size` into `[1,100]` (default 10) and
`page_number` into `[1,∞)`, compute `offset = (pageNumber-1)*pageSize` in
`int32` arithmetic, query storage (filtered by `user_id` when positive),
enrich each row with a non-retried author lookup (any failure degrades
that row's author to `nil`), and report
`totalPages = (total + pageSize - 1) / pageSize` in `int32` arithmetic.
`allRows` is the full table in result-set order. -/
def ListArticles (reqPageSize reqPageNumber reqUserId : Int)
    (allRows : List Article) (upstream : Int → Client.RawResult) :
    ListOutcome :=
  let ps0 := if reqPageSize ≤ 0 then defaultPageSize else reqPageSize
  let pageSize := if ps0 > maxPageSize then maxPageSize else ps0
  let pageNumber := if reqPageNumber < 1 then 1 else reqPageNumber
  let offset := wrap32 ((pageNumber - 1) * pageSize)
  let rows :=
    if reqUserId > 0 then allRows.filter (fun a => a.userId = reqUserId)
    else allRows
  match storageList rows pageSize offset with
  | .error _ =>
    ⟨Response.ListArticlesError .Internal, some pageSize, some offset⟩
  | .ok (articles, total) =>
    let articlesWithUser := articles.map (fun a =>
      match Client.GetUser (upstream a.userId) with
      | .ok u => ArticleWithUser.mk a (some (convertUser u))
      | .error _ => ArticleWithUser.mk a none)
    let totalPages := Int.tdiv (wrap32 (total + pageSize - 1)) pageSize
    ⟨Response.ListArticlesSuccess articlesWithUser total pageNumber
      totalPages, some pageSize, some offset⟩

end Server

/-! ## Theorems -/

section RetryTheorems

open Client

/-- Full unfolding of `GetUserWithRetry` for `maxRetries = 3`: the
outcome as a decision tree over the three possible attempts. -/
theorem retry_shape (oracle : Nat → RawResult) :
    GetUserWithRetry oracle =
      match GetUser (oracle 1) with
      | .ok u => ⟨.ok u, 1, []⟩
      | .error c1 =>
        if isRetryableError c1 then
          match GetUser (oracle 2) with
          | .ok u => ⟨.ok u, 2, [100]⟩
          | .error c2 =>
            if isRetryableError c2 then
              match GetUser (oracle 3) with
              | .ok u => ⟨.ok u, 3, [100, 200]⟩
              | .error c3 => ⟨.error c3, 3, [100, 200]⟩
            else ⟨.error c2, 2, [100]⟩
        else ⟨.error c1, 1, []⟩ := by
  rcases h1 : GetUser (oracle 1) with c1 | u
  · by_cases r1 : isRetryableError c1
    · rcases h2 : GetUser (oracle 2) with c2 | u
      · by_cases r2 : isRetryableError c2
        · rcases h3 : GetUser (oracle 3) with c3 | u
          · simp [GetUserWithRetry, maxRetries, retryBackoffInitial,
              retryBackoffMax, retryLoop, h1, h2, h3, r1, r2]
          · simp [GetUserWithRetry, maxRetries, retryBackoffInitial,
              retryBackoffMax, retryLoop, h1, h2, h3, r1, r2]
        · simp [GetUserWithRetry, maxRetries, retryBackoffInitial,
            retryBackoffMax, retryLoop, h1, h2, r1, r2]
      · simp [GetUserWithRetry, maxRetries, retryBackoffInitial,
          retryBackoffMax, retryLoop, h1, h2, r1]
    · simp [GetUserWithRetry, maxRetries, retryBackoffInitial, retryLoop,
        h1, r1]
  · simp [GetUserWithRetry, maxRetries, retryBackoffInitial, retryLoop, h1]

/-- When each of the three attempts fails with a retryable error, the
retry wrapper performs all three attempts, sleeps 100ms and 200ms, and
surfaces the outcome of the last attempt. -/
theorem retry_allTransient (oracle : Nat → RawResult)
    (h : ∀ n, 1 ≤ n → n ≤ 3 → ∃ c, GetUser (oracle n) = .error c ∧
      isRetryableError c = true) :
    GetUserWithRetry oracle = ⟨GetUser (oracle 3), 3, [100, 200]⟩ := by
  obtain ⟨c1, h1, r1⟩ := h 1 (by norm_num) (by norm_num)
  obtain ⟨c2, h2, r2⟩ := h 2 (by norm_num) (by norm_num)
  obtain ⟨c3, h3, r3⟩ := h 3 (by norm_num) (by norm_num)
  rw [retry_shape, h1, h2, h3]
  simp [r1, r2]

/-- C3: `GetUserWithRetry` executes at most 3 attempts; an error is
retried exactly when it is transient (`Unavailable`, `DeadlineExceeded`,
`ResourceExhausted`); a success or a non-retryable error on the first
attempt returns immediately; the k-th back-off sleep (0-based) is
`min(100ms * 2^k, 1s)`; and when all attempts fail transiently, all
three attempts run, the sleeps are 100ms and 200ms, and the caller
receives exactly the last observed error. -/
theorem getUserWithRetry_contract (oracle : Nat → RawResult) :
    (GetUserWithRetry oracle).attemptsUsed ≤ 3 ∧
    (∀ c, isRetryableError c = true ↔
      (c = .Unavailable ∨ c = .DeadlineExceeded ∨ c = .ResourceExhausted)) ∧
    (∀ u, GetUser (oracle 1) = .ok u →
      GetUserWithRetry oracle = ⟨.ok u, 1, []⟩) ∧
    (∀ c, GetUser (oracle 1) = .error c → isRetryableError c = false →
      GetUserWithRetry oracle = ⟨.error c, 1, []⟩) ∧
    (∀ k (hk : k < (GetUserWithRetry oracle).sleeps.length),
      (GetUserWithRetry oracle).sleeps.get ⟨k, hk⟩ =
        min (100 * 2 ^ k) 1000) ∧
    ((∀ n, 1 ≤ n → n ≤ 3 → ∃ c, GetUser (oracle n) = .error c ∧
        isRetryableError c = true) →
      (GetUserWithRetry oracle).attemptsUsed = 3 ∧
      (GetUserWithRetry oracle).result = GetUser (oracle 3) ∧
      (GetUserWithRetry oracle).sleeps = [100, 200]) := by
  refine ⟨?_, by decide, ?_, ?_, ?_, ?_⟩
  · rw [retry_shape]
    rcases GetUser (oracle 1) with c1 | u
    · by_cases r1 : isRetryableError c1
      · rcases GetUser (oracle 2) with c2 | u
        · by_cases r2 : isRetryableError c2
          · rcases GetUser (oracle 3) with c3 | u <;> simp [r1, r2]
          · simp [r1, r2]
        · simp [r1]
      · simp [r1]
    · simp
  · intro u hu
    rw [retry_shape, hu]
  · intro c hc hnr
    rw [retry_shape, hc]
    simp [hnr]
  · have hs : (GetUserWithRetry oracle).sleeps = [] ∨
        (GetUserWithRetry oracle).sleeps = [100] ∨
        (GetUserWithRetry oracle).sleeps = [100, 200] := by
      rw [retry_shape]
      rcases GetUser (oracle 1) with c1 | u
      · by_cases r1 : isRetryableError c1
        · rcases GetUser (oracle 2) with c2 | u
          · by_cases r2 : isRetryableError c2
            · rcases GetUser (oracle 3) with c3 | u <;> simp [r1, r2]
            · simp [r1, r2]
          · simp [r1]
        · simp [r1]
      · simp
    intro k hk
    have hk2 : k < (GetUserWithRetry oracle).sleeps.length := hk
    rcases hs with hs | hs | hs
    all_goals rw [List.get_eq_getElem]
    all_goals rw [hs] at hk2
    all_goals simp only [hs]
    all_goals simp only [List.length_cons, List.length_nil,
      List.length_singleton] at hk2
    · exact absurd hk2 (by norm_num)
    · interval_cases k
      norm_num
    · interval_cases k <;> norm_num
  · intro h
    rw [retry_allTransient oracle h]
    exact ⟨rfl, rfl, rfl⟩

/-- Concrete instantiation of `getUserWithRetry_contract`: an upstream
that is permanently unavailable makes the wrapper perform exactly three
attempts with sleeps 100ms and 200ms. -/
theorem getUserWithRetry_contract_witness :
    (GetUserWithRetry (fun _ => RawResult.errStatus .Unavailable)).attemptsUsed
        = 3 ∧
    (GetUserWithRetry (fun _ => RawResult.errStatus .Unavailable)).sleeps
        = [100, 200] := by
  have h := (getUserWithRetry_contract
    (fun _ => RawResult.errStatus .Unavailable)).2.2.2.2.2
    (fun n _ _ => ⟨.Unavailable, rfl, rfl⟩)
  exact ⟨h.1, h.2.2⟩

end RetryTheorems

/-- The gRPC codes given their own `case` in `MapGRPCCodeToString`; every
other code falls to the `default` branch. -/
def explicitlyMappedCodes : List GrpcCode :=
  [.OK, .InvalidArgument, .NotFound, .AlreadyExists, .PermissionDenied,
    .Unauthenticated, .Unavailable, .Internal]

/-- C5 counterexample: the outcome-code mapping is not injective over
distinct failure conditions — `DeadlineExceeded` and `ResourceExhausted`
are distinct conditions yet both map to `"002"`. -/
theorem mapCode_deadline_resource_collapse :
    Response.MapGRPCCodeToString .DeadlineExceeded =
      Response.MapGRPCCodeToString .ResourceExhausted ∧
    Response.MapGRPCCodeToString .DeadlineExceeded = "002" ∧
    GrpcCode.DeadlineExceeded ≠ GrpcCode.ResourceExhausted := by
  decide

/-- C5 (amended): the outcome-code mapping is total (every gRPC code gets
a code from the closed envelope set) and stable (it is a pure function of
the input code), and it is injective on the codes with their own `case`
(`OK`, `InvalidArgument`, `NotFound`, `AlreadyExists`, `PermissionDenied`,
`Unauthenticated`, `Unavailable`, `Internal`); every remaining code —
`DeadlineExceeded` and `ResourceExhausted` included — collapses to the
single default `"002"` (unknown). -/
theorem mapCode_total_stable_injective_on_explicit :
    (∀ c, Response.MapGRPCCodeToString c ∈ Response.envelopeCodes) ∧
    (∀ c d, c = d →
      Response.MapGRPCCodeToString c = Response.MapGRPCCodeToString d) ∧
    (∀ c d, c ∈ explicitlyMappedCodes → d ∈ explicitlyMappedCodes →
      Response.MapGRPCCodeToString c = Response.MapGRPCCodeToString d →
      c = d) ∧
    (∀ c, c ∉ explicitlyMappedCodes →
      Response.MapGRPCCodeToString c = "002") := by
  decide

/-- Concrete instantiation of
`mapCode_total_stable_injective_on_explicit`: `DataLoss` has no `case` of
its own and maps to the default `"002"`. -/
theorem mapCode_total_stable_injective_on_explicit_witness :
    Response.MapGRPCCodeToString .DataLoss = "002" :=
  mapCode_total_stable_injective_on_explicit.2.2.2 .DataLoss (by decide)

/-- C9: a `GetArticle` request with a non-positive id is rejected with
envelope code `"003"` (invalid argument) and no data, before any storage
query or upstream author lookup is issued; the inner
`GetArticleWithUser` likewise rejects it up front. -/
theorem getArticle_nonpositive_id (reqId : Int) (h : reqId ≤ 0)
    (repoGet : Int → Server.RepoGetResult)
    (upstream : Int → Client.RawResult) :
    (Server.GetArticle reqId repoGet upstream).resp.code = "003" ∧
    (Server.GetArticle reqId repoGet upstream).resp.data = none ∧
    (Server.GetArticle reqId repoGet upstream).events = [] ∧
    (Server.GetArticleWithUser reqId repoGet upstream).result =
      .error .InvalidArgument ∧
    (Server.GetArticleWithUser reqId repoGet upstream).events = [] := by
  unfold Server.GetArticle Server.GetArticleWithUser
  rw [if_pos h, if_pos h]
  exact ⟨rfl, rfl, rfl, rfl, rfl⟩

/-- Concrete instantiation of `getArticle_nonpositive_id` at id 0. -/
theorem getArticle_nonpositive_id_witness :
    (Server.GetArticle 0 (fun _ => Server.RepoGetResult.noRows)
      (fun _ => Client.RawResult.okEmpty)).resp.code = "003" ∧
    (Server.GetArticle 0 (fun _ => Server.RepoGetResult.noRows)
      (fun _ => Client.RawResult.okEmpty)).resp.data = none ∧
    (Server.GetArticle 0 (fun _ => Server.RepoGetResult.noRows)
      (fun _ => Client.RawResult.okEmpty)).events = [] ∧
    (Server.GetArticleWithUser 0 (fun _ => Server.RepoGetResult.noRows)
      (fun _ => Client.RawResult.okEmpty)).result =
      .error .InvalidArgument ∧
    (Server.GetArticleWithUser 0 (fun _ => Server.RepoGetResult.noRows)
      (fun _ => Client.RawResult.okEmpty)).events = [] :=
  getArticle_nonpositive_id 0 (by norm_num)
    (fun _ => Server.RepoGetResult.noRows)
    (fun _ => Client.RawResult.okEmpty)

/-- C10: an `UpdateArticle` request with both fields empty is rejected
with envelope code `"003"` (invalid argument) and no data; the stored
table is left untouched and no repository read or write is performed. -/
theorem updateArticle_both_empty (st : Server.Store) (reqId : Int)
    (now : Nat) :
    (Server.UpdateArticle st reqId "" "" now).resp.code = "003" ∧
    (Server.UpdateArticle st reqId "" "" now).resp.data = none ∧
    (Server.UpdateArticle st reqId "" "" now).store = st ∧
    (Server.UpdateArticle st reqId "" "" now).events = [] := by
  unfold Server.UpdateArticle
  by_cases h : reqId ≤ 0
  · rw [if_pos h]
    exact ⟨rfl, rfl, rfl, rfl⟩
  · rw [if_neg h, if_pos ⟨rfl, rfl⟩]
    exact ⟨rfl, rfl, rfl, rfl⟩

/-- C6: an authenticated `CreateArticle` with non-empty title and content
whose author lookup returns `NotFound` fails with envelope code `"003"`
(invalid argument) and no data — never `"013"` (internal) and never
`"015"` (unavailable). -/
theorem createArticle_author_notFound (uid : Int) (title content : String)
    (oracle : Nat → Client.RawResult) (repoCreate : Except Unit Article)
    (ht : ¬ title = "") (hc : ¬ content = "")
    (hnf : Client.GetUser (oracle 1) = .error .NotFound) :
    (Server.CreateArticle (.ok uid) title content oracle repoCreate).resp =
      ⟨"003", none⟩ ∧
    (Server.CreateArticle (.ok uid) title content oracle
      repoCreate).resp.code ≠ "013" ∧
    (Server.CreateArticle (.ok uid) title content oracle
      repoCreate).resp.code ≠ "015" := by
  have h1 : (Server.CreateArticle (.ok uid) title content oracle
      repoCreate).resp = ⟨"003", none⟩ := by
    simp [Server.CreateArticle, ht, hc, hnf, Response.CreateArticleError,
      Response.MapGRPCCodeToString, Response.CodeInvalidRequest]
  refine ⟨h1, ?_, ?_⟩ <;> rw [h1] <;> decide

/-- Concrete instantiation of `createArticle_author_notFound`. -/
theorem createArticle_author_notFound_witness :
    (Server.CreateArticle (.ok 7) "T" "C"
      (fun _ => Client.RawResult.errStatus .NotFound)
      (.error ())).resp = ⟨"003", none⟩ ∧
    (Server.CreateArticle (.ok 7) "T" "C"
      (fun _ => Client.RawResult.errStatus .NotFound)
      (.error ())).resp.code ≠ "013" ∧
    (Server.CreateArticle (.ok 7) "T" "C"
      (fun _ => Client.RawResult.errStatus .NotFound)
      (.error ())).resp.code ≠ "015" :=
  createArticle_author_notFound 7 "T" "C"
    (fun _ => Client.RawResult.errStatus .NotFound) (.error ())
    (by decide) (by decide) rfl

/-- C1 counterexample: with the article row present, an author lookup
failing with `Internal` does not degrade — `GetArticle` fails with
envelope code `"013"` and no data instead of returning the article with a
null author. -/
theorem getArticle_internal_author_failure_fails :
    (Server.GetArticle 1 (fun _ => .found ⟨1, "T", "C", 7, 0, 0⟩)
      (fun _ => Client.RawResult.errStatus .Internal)).resp =
      ⟨"013", none⟩ ∧
    ("013" : String) ≠ "000" := by
  decide

/-- C1 (amended): for an existing row, `GetArticle` degrades gracefully —
success envelope `"000"` carrying the article with a null author —
exactly when the author lookup fails with `NotFound`, `Unavailable` or
`DeadlineExceeded`; on any other lookup failure (internal, unknown,
invalid-argument, non-status error) the request fails with envelope code
`"013"` (internal) and no data. -/
theorem getArticle_degradation_classification (reqId : Int)
    (repoGet : Int → Server.RepoGetResult)
    (upstream : Int → Client.RawResult) (a : Article) (c : GrpcCode)
    (hpos : 0 < reqId) (hrow : repoGet reqId = .found a)
    (hfail : Client.GetUser (upstream a.userId) = .error c) :
    ((c = .NotFound ∨ c = .Unavailable ∨ c = .DeadlineExceeded) →
      (Server.GetArticle reqId repoGet upstream).resp =
        ⟨"000", some ⟨a, none⟩⟩) ∧
    (c ≠ .NotFound → c ≠ .Unavailable → c ≠ .DeadlineExceeded →
      (Server.GetArticle reqId repoGet upstream).resp = ⟨"013", none⟩) := by
  have hneg : ¬ reqId ≤ 0 := not_le.mpr hpos
  constructor
  · rintro (rfl | rfl | rfl) <;>
      simp [Server.GetArticle, Server.GetArticleWithUser, hneg, hrow, hfail,
        Response.GetArticleSuccess, Response.CodeSuccess]
  · intro h1 h2 h3
    cases c <;> first
      | exact absurd rfl h1
      | exact absurd rfl h2
      | exact absurd rfl h3
      | simp [Server.GetArticle, Server.GetArticleWithUser, hneg, hrow,
          hfail, Response.GetArticleError, Response.MapGRPCCodeToString,
          Response.CodeInternalError]

/-- Concrete instantiation of `getArticle_degradation_classification`:
an unavailable author service degrades to success with a null author. -/
theorem getArticle_degradation_classification_witness :
    (Server.GetArticle 1 (fun _ => .found ⟨1, "T", "C", 7, 0, 0⟩)
      (fun _ => Client.RawResult.errStatus .Unavailable)).resp =
      ⟨"000", some ⟨⟨1, "T", "C", 7, 0, 0⟩, none⟩⟩ :=
  (getArticle_degradation_classification 1
    (fun _ => .found ⟨1, "T", "C", 7, 0, 0⟩)
    (fun _ => Client.RawResult.errStatus .Unavailable)
    ⟨1, "T", "C", 7, 0, 0⟩ .Unavailable (by norm_num) rfl rfl).1
    (Or.inr (Or.inl rfl))

/-- C2 counterexample: with an upstream that always times out,
`CreateArticle` performs exactly one lookup attempt — not 3 — and the
failure surfaces with envelope code `"002"`, not `"015"`. -/
theorem createArticle_timeout_one_attempt :
    (Server.CreateArticle (.ok 7) "T" "C"
      (fun _ => Client.RawResult.errStatus .DeadlineExceeded)
      (.error ())).upstreamAttempts = 1 ∧
    (Server.CreateArticle (.ok 7) "T" "C"
      (fun _ => Client.RawResult.errStatus .DeadlineExceeded)
      (.error ())).resp = ⟨"002", none⟩ ∧
    (1 : Nat) ≠ 3 ∧ ("002" : String) ≠ "015" := by
  decide

/-- C2 (amended): `CreateArticle` verifies the author with a single,
non-retried `GetUser` call — exactly one upstream attempt whatever the
outcome; a lookup failure of kind `Unavailable` surfaces as envelope code
`"015"` (a timeout surfaces as `"002"`). The configured 3-attempt retry
policy lives in `GetUserWithRetry` and is used only by the deprecated
`CreateArticleOld`, which against a permanently unavailable upstream
performs exactly 3 attempts and fails with `Unavailable`, the kind mapped
to `"015"`. -/
theorem createArticle_single_lookup_contract (uid : Int)
    (title content : String) (oracle : Nat → Client.RawResult)
    (repoCreate : Except Unit Article)
    (ht : ¬ title = "") (hc : ¬ content = "") :
    (Server.CreateArticle (.ok uid) title content oracle
      repoCreate).upstreamAttempts = 1 ∧
    (Client.GetUser (oracle 1) = .error .Unavailable →
      (Server.CreateArticle (.ok uid) title content oracle repoCreate).resp
        = ⟨"015", none⟩) ∧
    ((∀ n, oracle n = .errStatus .Unavailable) → 0 < uid →
      (Server.CreateArticleOld title content uid oracle
        repoCreate).upstreamAttempts = 3 ∧
      (Server.CreateArticleOld title content uid oracle repoCreate).result
        = .error .Unavailable ∧
      Response.MapGRPCCodeToString .Unavailable = "015") := by
  refine ⟨?_, ?_, ?_⟩
  · rcases h : Client.GetUser (oracle 1) with c | u
    · cases c <;> simp [Server.CreateArticle, ht, hc, h]
    · cases repoCreate <;> simp [Server.CreateArticle, ht, hc, h]
  · intro hu
    simp [Server.CreateArticle, ht, hc, hu, Response.CreateArticleError,
      Response.MapGRPCCodeToString, Response.CodeServiceUnavailable]
  · intro ho hu
    have hneg : ¬ uid ≤ 0 := not_le.mpr hu
    have hr2 : Client.GetUserWithRetry oracle =
        ⟨.error .Unavailable, 3, [100, 200]⟩ := by
      rw [retry_allTransient oracle
        (fun n _ _ => ⟨.Unavailable, by rw [ho n]; decide, rfl⟩), ho 3]
      decide
    refine ⟨?_, ?_, by decide⟩ <;>
      simp [Server.CreateArticleOld, ht, hc, hneg, hr2]

/-- Concrete instantiation of `createArticle_single_lookup_contract`: an
always-unavailable upstream gives one attempt and code `"015"` on the
current path, three attempts on the deprecated retried path. -/
theorem createArticle_single_lookup_contract_witness :
    (Server.CreateArticle (.ok 7) "T" "C"
      (fun _ => Client.RawResult.errStatus .Unavailable)
      (.error ())).upstreamAttempts = 1 ∧
    (Server.CreateArticle (.ok 7) "T" "C"
      (fun _ => Client.RawResult.errStatus .Unavailable)
      (.error ())).resp = ⟨"015", none⟩ ∧
    (Server.CreateArticleOld "T" "C" 7
      (fun _ => Client.RawResult.errStatus .Unavailable)
      (.error ())).upstreamAttempts = 3 := by
  have h := createArticle_single_lookup_contract 7 "T" "C"
    (fun _ => Client.RawResult.errStatus .Unavailable) (.error ())
    (by decide) (by decide)
  exact ⟨h.1, h.2.1 rfl, (h.2.2 (fun _ => rfl) (by norm_num)).1⟩

/-- C7 counterexample: the successful `DeleteArticle` response does not
return the deleted row's data — two tables whose row 1 holds entirely
different articles produce identical responses, each carrying only a
success flag. -/
theorem deleteArticle_response_lacks_row_data :
    (Server.DeleteArticle
      (fun j => if j = 1 then some ⟨1, "A", "B", 1, 0, 0⟩ else none)
      1).resp =
    (Server.DeleteArticle
      (fun j => if j = 1 then some ⟨1, "X", "Y", 2, 3, 4⟩ else none)
      1).resp ∧
    (Server.DeleteArticle
      (fun j => if j = 1 then some ⟨1, "A", "B", 1, 0, 0⟩ else none)
      1).resp = ⟨"000", some true⟩ ∧
    (⟨1, "A", "B", 1, 0, 0⟩ : Article) ≠ ⟨1, "X", "Y", 2, 3, 4⟩ := by
  decide

/-- C7 (amended): for every existing article, `DeleteArticle` first loads
the row (an existence check whose result is discarded) and then deletes
it; the successful response carries only the success flag, not the
deleted row's data. -/
theorem deleteArticle_load_then_delete (st : Server.Store) (reqId : Int)
    (a : Article) (hpos : 0 < reqId) (hrow : st reqId = some a) :
    (Server.DeleteArticle st reqId).events =
      [.repoGetById reqId, .repoDelete reqId] ∧
    (Server.DeleteArticle st reqId).resp = ⟨"000", some true⟩ ∧
    (Server.DeleteArticle st reqId).store reqId = none := by
  have hneg : ¬ reqId ≤ 0 := not_le.mpr hpos
  simp [Server.DeleteArticle, Server.repoDelete, hneg, hrow,
    Response.DeleteArticleSuccess, Response.CodeSuccess]

/-- Concrete instantiation of `deleteArticle_load_then_delete`. -/
theorem deleteArticle_load_then_delete_witness :
    (Server.DeleteArticle
      (fun j => if j = 2 then some ⟨2, "T", "C", 5, 0, 0⟩ else none)
      2).events = [.repoGetById 2, .repoDelete 2] ∧
    (Server.DeleteArticle
      (fun j => if j = 2 then some ⟨2, "T", "C", 5, 0, 0⟩ else none)
      2).resp = ⟨"000", some true⟩ ∧
    (Server.DeleteArticle
      (fun j => if j = 2 then some ⟨2, "T", "C", 5, 0, 0⟩ else none)
      2).store 2 = none :=
  deleteArticle_load_then_delete
    (fun j => if j = 2 then some ⟨2, "T", "C", 5, 0, 0⟩ else none)
    2 ⟨2, "T", "C", 5, 0, 0⟩ (by norm_num) (by norm_num)

/-- C8 counterexample: re-applying the same partial update
(`title = ""`, `content = "X"`) at a later database instant does not
yield the same final stored state — the `UPDATE` also refreshes
`updated_at = CURRENT_TIMESTAMP`, so the second application changes the
row's timestamp even though title and content are unchanged. -/
theorem updateArticle_reapply_differs :
    (Server.UpdateArticle
      ((Server.UpdateArticle
        (fun j => if j = 1 then some ⟨1, "A", "B", 7, 0, 0⟩ else none)
        1 "" "X" 1).store) 1 "" "X" 2).store 1 =
      some ⟨1, "A", "X", 7, 0, 2⟩ ∧
    (Server.UpdateArticle
      (fun j => if j = 1 then some ⟨1, "A", "B", 7, 0, 0⟩ else none)
      1 "" "X" 1).store 1 = some ⟨1, "A", "X", 7, 0, 1⟩ ∧
    some (⟨1, "A", "X", 7, 0, 2⟩ : Article) ≠ some ⟨1, "A", "X", 7, 0, 1⟩ := by
  decide

/-- C8 (amended): for an existing article, `UpdateArticle` with an empty
title (resp. empty content) keeps the stored title (resp. content)
unchanged and sets the supplied field, additionally refreshing the row's
`updated_at` timestamp; re-applying the same partial update yields the
same stored title and content as applying it once, the final states
differing only in `updated_at`, which reflects the last application's
instant. -/
theorem updateArticle_partial_update (st : Server.Store) (reqId : Int)
    (a : Article) (title2 content2 : String) (now1 now2 : Nat)
    (hpos : 0 < reqId) (hrow : st reqId = some a)
    (ht : ¬ title2 = "") (hc : ¬ content2 = "") :
    ((Server.UpdateArticle st reqId "" content2 now1).store reqId =
      some { a with content := content2, updatedAt := now1 }) ∧
    ((Server.UpdateArticle st reqId "" content2 now1).resp =
      ⟨"000", some { a with content := content2, updatedAt := now1 }⟩) ∧
    ((Server.UpdateArticle st reqId title2 "" now1).store reqId =
      some { a with title := title2, updatedAt := now1 }) ∧
    ((Server.UpdateArticle
        ((Server.UpdateArticle st reqId "" content2 now1).store)
        reqId "" content2 now2).store reqId =
      some { a with content := content2, updatedAt := now2 }) := by
  have hneg : ¬ reqId ≤ 0 := not_le.mpr hpos
  refine ⟨?_, ?_, ?_, ?_⟩ <;>
    simp [Server.UpdateArticle, Server.repoUpdate, hneg, hrow, ht, hc,
      Response.UpdateArticleSuccess, Response.CodeSuccess]

/-- Concrete instantiation of `updateArticle_partial_update`. -/
theorem updateArticle_partial_update_witness :
    ((Server.UpdateArticle
      (fun j => if j = 1 then some ⟨1, "A", "B", 7, 0, 0⟩ else none)
      1 "" "X" 5).store 1 = some ⟨1, "A", "X", 7, 0, 5⟩) ∧
    ((Server.UpdateArticle
      (fun j => if j = 1 then some ⟨1, "A", "B", 7, 0, 0⟩ else none)
      1 "" "X" 5).resp = ⟨"000", some ⟨1, "A", "X", 7, 0, 5⟩⟩) ∧
    ((Server.UpdateArticle
      (fun j => if j = 1 then some ⟨1, "A", "B", 7, 0, 0⟩ else none)
      1 "Z" "" 5).store 1 = some ⟨1, "Z", "B", 7, 0, 5⟩) ∧
    ((Server.UpdateArticle
      ((Server.UpdateArticle
        (fun j => if j = 1 then some ⟨1, "A", "B", 7, 0, 0⟩ else none)
        1 "" "X" 5).store) 1 "" "X" 9).store 1 =
      some ⟨1, "A", "X", 7, 0, 9⟩) :=
  updateArticle_partial_update
    (fun j => if j = 1 then some ⟨1, "A", "B", 7, 0, 0⟩ else none)
    1 ⟨1, "A", "B", 7, 0, 0⟩ "Z" "X" 5 9 (by norm_num) (by norm_num)
    (by decide) (by decide)

/-- A value already inside the `int32` range is unchanged by the
two's-complement wrap. -/
theorem wrap32_eq_self (n : Int) (h1 : -2 ^ 31 ≤ n) (h2 : n < 2 ^ 31) :
    wrap32 n = n := by
  unfold wrap32
  omega

/-- The rational ceiling of `a / b` as the integer `(a + b - 1) / b`, for
a positive divisor. -/
theorem ceil_div_formula (a b : ℤ) (hb : 0 < b) :
    ⌈(a : ℚ) / (b : ℚ)⌉ = (a + b - 1) / b := by
  have hq := Int.ediv_add_emod (a + b - 1) b
  have hr0 : 0 ≤ (a + b - 1) % b := Int.emod_nonneg _ (by omega)
  have hrb : (a + b - 1) % b < b := Int.emod_lt_of_pos _ hb
  have h1 : a ≤ b * ((a + b - 1) / b) := by linarith [hq, hrb]
  have h2 : b * ((a + b - 1) / b) < a + b := by linarith [hq, hr0]
  have hbq : (0 : ℚ) < (b : ℚ) := by exact_mod_cast hb
  rw [Int.ceil_eq_iff]
  constructor
  · rw [lt_div_iff₀ hbq]
    have hc2 : (b : ℚ) * (((a + b - 1) / b : ℤ) : ℚ) < (a : ℚ) + (b : ℚ) := by
      exact_mod_cast h2
    nlinarith [hc2]
  · rw [div_le_iff₀ hbq]
    have hc1 : (a : ℚ) ≤ (b : ℚ) * (((a + b - 1) / b : ℤ) : ℚ) := by
      exact_mod_cast h1
    nlinarith [hc1]

/-- C4 counterexample: at `page = 2^31 - 1`, `pageSize = 100` (in-range
request parameters), the `int32` product `(page-1)*pageSize` wraps to
`-200`, so storage is queried with offset `-200` rather than the claimed
`(page-1)*pageSize = 214748364600`, and the request fails with envelope
code `"013"` instead of returning the claimed number of items. -/
theorem listArticles_offset_overflow :
    (Server.ListArticles 100 2147483647 0 []
      (fun _ => Client.RawResult.okEmpty)).queriedOffset = some (-200) ∧
    ((2147483647 - 1 : Int) * 100 = 214748364600) ∧
    ((-200 : Int) ≠ 214748364600) ∧
    (Server.ListArticles 100 2147483647 0 []
      (fun _ => Client.RawResult.okEmpty)).resp.code = "013" := by
  refine ⟨?_, by norm_num, by norm_num, ?_⟩ <;>
    simp [Server.ListArticles, Server.storageList, Server.defaultPageSize,
      Server.maxPageSize, wrap32, Response.ListArticlesError,
      Response.MapGRPCCodeToString, Response.CodeInternalError]

/-- C4 (amended): with `pageSize` normalized into `[1,100]` (default 10)
and `page` into `[1,∞)`, and provided the `int32` arithmetic does not
overflow — `(page-1)*pageSize < 2^31` and `total + 100 < 2^31` —
`ListArticles` queries storage with `limit = pageSize` and
`offset = (page-1)*pageSize`, succeeds with code `"000"`, returns exactly
`min(pageSize, max(0, total - (page-1)*pageSize))` items (storage
honouring `LIMIT`/`OFFSET` over the ordered, possibly user-filtered,
result set), and reports `total` and `totalPages = ceil(total/pageSize)`;
beyond the overflow bound the computed offset wraps
(`listArticles_offset_overflow`). -/
theorem listArticles_pagination (reqPageSize reqPageNumber reqUserId : Int)
    (allRows : List Article) (upstream : Int → Client.RawResult)
    (ps pn : Int) (rows : List Article)
    (hps : ps = if reqPageSize ≤ 0 then 10
      else if reqPageSize > 100 then 100 else reqPageSize)
    (hpn : pn = if reqPageNumber < 1 then 1 else reqPageNumber)
    (hrows : rows = if reqUserId > 0 then
      allRows.filter (fun a => a.userId = reqUserId) else allRows)
    (hoff : (pn - 1) * ps < 2 ^ 31)
    (hlen : (rows.length : Int) + 100 < 2 ^ 31) :
    (Server.ListArticles reqPageSize reqPageNumber reqUserId allRows
      upstream).queriedLimit = some ps ∧
    (Server.ListArticles reqPageSize reqPageNumber reqUserId allRows
      upstream).queriedOffset = some ((pn - 1) * ps) ∧
    (Server.ListArticles reqPageSize reqPageNumber reqUserId allRows
      upstream).resp.code = "000" ∧
    ∃ d, (Server.ListArticles reqPageSize reqPageNumber reqUserId allRows
        upstream).resp.data = some d ∧
      (d.articles.length : Int) =
        min ps (max 0 ((rows.length : Int) - (pn - 1) * ps)) ∧
      d.total = (rows.length : Int) ∧
      d.page = pn ∧
      d.totalPages = ⌈((rows.length : Int) : ℚ) / (ps : ℚ)⌉ := by
  have hps1 : 1 ≤ ps := by rw [hps]; split_ifs <;> omega
  have hps100 : ps ≤ 100 := by rw [hps]; split_ifs <;> omega
  have hpn1 : 1 ≤ pn := by rw [hpn]; split_ifs <;> omega
  have hps2 : (if (if reqPageSize ≤ 0 then (10 : Int) else reqPageSize) >
      Server.maxPageSize then Server.maxPageSize
      else if reqPageSize ≤ 0 then (10 : Int) else reqPageSize) = ps := by
    rw [hps]
    unfold Server.maxPageSize
    split_ifs <;> omega
  have hoff0 : 0 ≤ (pn - 1) * ps := mul_nonneg (by omega) (by omega)
  have hwoff : wrap32 ((pn - 1) * ps) = (pn - 1) * ps :=
    wrap32_eq_self _ (by omega) hoff
  have hL0 : (0 : Int) ≤ (rows.length : Int) := Int.natCast_nonneg _
  have hwlen : wrap32 ((rows.length : Int)) = (rows.length : Int) :=
    wrap32_eq_self _ (by omega) (by omega)
  have hwsum : wrap32 ((rows.length : Int) + ps - 1) =
      (rows.length : Int) + ps - 1 :=
    wrap32_eq_self _ (by omega) (by omega)
  have htdiv : Int.tdiv ((rows.length : Int) + ps - 1) ps =
      ((rows.length : Int) + ps - 1) / ps :=
    Int.tdiv_eq_ediv (by omega) (by omega)
  have hnotneg : ¬ ((pn - 1) * ps < 0 ∨ ps < 0) := by
    push_neg
    exact ⟨hoff0, by omega⟩
  simp only [Server.ListArticles, Server.defaultPageSize, hps2, ← hpn,
    ← hrows, hwoff, Server.storageList, if_neg hnotneg, hwlen, hwsum,
    htdiv]
  refine ⟨trivial, trivial, rfl, ⟨_, rfl, ?_, rfl, rfl, ?_⟩⟩
  · simp only [List.length_map, List.length_take, List.length_drop]
    omega
  · rw [ceil_div_formula _ _ (by omega)]

/-- Concrete instantiation of `listArticles_pagination`: two rows, page 1
of size 10 — both rows returned, one total page. -/
theorem listArticles_pagination_witness :
    (Server.ListArticles 10 1 0
      [⟨1, "A", "B", 7, 0, 0⟩, ⟨2, "C", "D", 7, 0, 0⟩]
      (fun _ => Client.RawResult.okEmpty)).queriedLimit = some 10 ∧
    (Server.ListArticles 10 1 0
      [⟨1, "A", "B", 7, 0, 0⟩, ⟨2, "C", "D", 7, 0, 0⟩]
      (fun _ => Client.RawResult.okEmpty)).queriedOffset = some ((1 - 1) * 10) ∧
    (Server.ListArticles 10 1 0
      [⟨1, "A", "B", 7, 0, 0⟩, ⟨2, "C", "D", 7, 0, 0⟩]
      (fun _ => Client.RawResult.okEmpty)).resp.code = "000" ∧
    ∃ d, (Server.ListArticles 10 1 0
        [⟨1, "A", "B", 7, 0, 0⟩, ⟨2, "C", "D", 7, 0, 0⟩]
        (fun _ => Client.RawResult.okEmpty)).resp.data = some d ∧
      (d.articles.length : Int) =
        min 10 (max 0
          ((([⟨1, "A", "B", 7, 0, 0⟩, ⟨2, "C", "D", 7, 0, 0⟩] :
            List Article).length : Int) - (1 - 1) * 10)) ∧
      d.total = (([⟨1, "A", "B", 7, 0, 0⟩, ⟨2, "C", "D", 7, 0, 0⟩] :
        List Article).length : Int) ∧
      d.page = 1 ∧
      d.totalPages = ⌈((([⟨1, "A", "B", 7, 0, 0⟩, ⟨2, "C", "D", 7, 0, 0⟩] :
        List Article).length : Int) : ℚ) / ((10 : Int) : ℚ)⌉ :=
  listArticles_pagination 10 1 0
    [⟨1, "A", "B", 7, 0, 0⟩, ⟨2, "C", "D", 7, 0, 0⟩]
    (fun _ => Client.RawResult.okEmpty) 10 1
    [⟨1, "A", "B", 7, 0, 0⟩, ⟨2, "C", "D", 7, 0, 0⟩]
    (by norm_num) (by norm_num) (by norm_num) (by norm_num) (by norm_num)

end ArticleService
